import Mathlib

/-!
Shallow embedding of `redash/__init__.py` (redash 4.0.1 bootstrap module).

The module wires the Flask application together.  The parts the claims are
about are:

* `create_redis_connection`, which dispatches on the parsed `REDIS_URL`
  (scheme `redis+socket` vs anything else) and builds a `StrictRedis`
  client;
* `create_app`, which constructs a `JwtFlask` subclass of `Flask` exactly
  when `settings.REMOTE_JWT_LOGIN_ENABLED` holds;
* `JwtFlask.process_response`, the JWT cookie-refresh response hook.

Library calls made by the module (`urlparse.urlparse`, `urlparse.parse_qs`,
`jose.jwt.decode` / `jose.jwt.get_unverified_claims`, `requests.post`,
`time.time`, and the superclass `Flask.process_response`) are modelled as
oracle inputs: the embedding takes their results as parameters, and the
theorems hold for every behaviour of those oracles.  `urllib.quote_plus`
and `urllib.unquote` are implemented faithfully from the Python 2 `urllib`
they come from, since the redirect URL and the Redis password depend on
them.  Python byte strings are modelled as Lean strings (lists of
characters), numeric JWT claims and `time.time()` as integers, and Python
exceptions as explicit error constructors.
-/

/-- Uppercase hexadecimal digit, as used by Python 2 `urllib.quote`'s
`'%%%02X' % ord(c)`. -/
def hexDigit (n : Nat) : Char :=
  if n < 10 then Char.ofNat (48 + n) else Char.ofNat (55 + n)

/-- Two-digit uppercase hexadecimal rendering of a byte value. -/
def toHex2 (n : Nat) : List Char :=
  [hexDigit (n / 16 % 16), hexDigit (n % 16)]

/-- Python 2 `urllib.always_safe` membership: ASCII letters, digits,
`'_'`, `'.'` and `'-'`. -/
def isAlwaysSafe (c : Char) : Bool :=
  (decide (65 ≤ c.toNat) && decide (c.toNat ≤ 90)) ||
  (decide (97 ≤ c.toNat) && decide (c.toNat ≤ 122)) ||
  (decide (48 ≤ c.toNat) && decide (c.toNat ≤ 57)) ||
  c == '_' || c == '.' || c == '-'

/-- One character of Python 2 `urllib.quote`: kept when always-safe or in
the `safe` set, percent-encoded otherwise. -/
def quoteChar (safe : List Char) (c : Char) : List Char :=
  if isAlwaysSafe c || safe.contains c then [c] else '%' :: toHex2 c.toNat

/-- Python 2 `urllib.quote` over a character list with the given `safe`
set. -/
def pyQuote (safe : List Char) (s : List Char) : List Char :=
  (s.map (quoteChar safe)).flatten

/-- Python 2 `urllib.quote_plus` with the default empty `safe` argument:
if the string contains a space, quote with space kept safe and then turn
spaces into `'+'`; otherwise plain quote. -/
def quote_plus (s : String) : String :=
  let cs := s.data
  if cs.contains ' ' then
    String.mk ((pyQuote [' '] cs).map (fun c => if c == ' ' then '+' else c))
  else
    String.mk (pyQuote [] cs)

/-- Value of a hexadecimal digit character, both cases accepted, as in
Python 2 `urllib._hextochr`. -/
def hexVal (c : Char) : Option Nat :=
  if 48 ≤ c.toNat && c.toNat ≤ 57 then some (c.toNat - 48)
  else if 65 ≤ c.toNat && c.toNat ≤ 70 then some (c.toNat - 55)
  else if 97 ≤ c.toNat && c.toNat ≤ 102 then some (c.toNat - 87)
  else none

/-- Splitting a character list on `'%'`, keeping empty segments, as
Python's `s.split('%')` does. -/
def splitPercent : List Char → List (List Char)
  | [] => [[]]
  | c :: rest =>
    if c == '%' then [] :: splitPercent rest
    else
      match splitPercent rest with
      | [] => [[c]]
      | h :: t => (c :: h) :: t

/-- Decoding of one `'%'`-separated segment in Python 2 `urllib.unquote`:
the first two characters are read as a hex byte when possible, otherwise
the `'%'` is restored verbatim. -/
def unquoteItem (item : List Char) : List Char :=
  match item with
  | a :: b :: rest =>
    match hexVal a, hexVal b with
    | some x, some y => Char.ofNat (16 * x + y) :: rest
    | _, _ => '%' :: item
  | _ => '%' :: item

/-- Python 2 `urllib.unquote`: split on `'%'` and decode each later
segment. -/
def unquote (s : String) : String :=
  match splitPercent s.data with
  | [] => s
  | [_] => s
  | first :: rest => String.mk (first ++ (rest.map unquoteItem).flatten)

/-- The result of `urlparse.urlparse(settings.REDIS_URL)`, with the
attributes `create_redis_connection` reads. -/
structure ParsedUrl where
  scheme : String
  hostname : Option String
  port : Option Int
  password : Option String
  path : String
  query : String
deriving DecidableEq

/-- A Python value passed as the `db` argument of `redis.StrictRedis`:
the code passes either a string (query-string value, or the one-character
slice `path[1]`) or the integer `0`. -/
inductive DbVal
  | ofString (s : String)
  | ofInt (n : Int)
deriving DecidableEq

/-- The `redis.StrictRedis` client as constructed by
`create_redis_connection`: either over a unix socket or over TCP,
recording exactly the constructor arguments the code passes. -/
inductive RedisConn
  | socket (unix_socket_path : String) (db : DbVal)
  | tcp (host : Option String) (port : Option Int) (db : DbVal) (password : Option String)
deriving DecidableEq

/-- The Python exception `create_redis_connection` can raise: an
`IndexError` from `redis_url.path[1]` or `qs['virtual_host'][0]`. -/
inductive RedisErr
  | indexError
deriving DecidableEq

/-- Dictionary lookup in the `urlparse.parse_qs` result, modelled as an
association list: `'virtual_host' in qs` and `qs['virtual_host']`. -/
def lookupQs (qs : List (String × List String)) (k : String) : Option (List String) :=
  (qs.find? (fun p => p.fst == k)).map Prod.snd

/-- `create_redis_connection` from `redash/__init__.py`, over the parsed
`REDIS_URL` and the `parse_qs` oracle.  Scheme `redis+socket` connects
over the unix socket at the URL path with `db` the first `virtual_host`
query value (or `0`); any other scheme connects to hostname and port with
`db` the character `path[1]` (or `0` for an empty path) and the password
percent-unquoted when present. -/
def create_redis_connection (redis_url : ParsedUrl)
    (parse_qs : String → List (String × List String)) : Except RedisErr RedisConn :=
  if redis_url.scheme == "redis+socket" then
    match lookupQs (parse_qs redis_url.query) "virtual_host" with
    | some (v :: _) => Except.ok (RedisConn.socket redis_url.path (DbVal.ofString v))
    | some [] => Except.error RedisErr.indexError
    | none => Except.ok (RedisConn.socket redis_url.path (DbVal.ofInt 0))
  else
    let redis_password := redis_url.password.map (fun p => if p == "" then p else unquote p)
    if redis_url.path == "" then
      Except.ok (RedisConn.tcp redis_url.hostname redis_url.port (DbVal.ofInt 0) redis_password)
    else
      match redis_url.path.data.get? 1 with
      | some c =>
        Except.ok (RedisConn.tcp redis_url.hostname redis_url.port
          (DbVal.ofString (String.mk [c])) redis_password)
      | none => Except.error RedisErr.indexError

/-- The JWT claims dictionary returned by `jose.jwt.decode` /
`jose.jwt.get_unverified_claims`: the keys `process_response` looks up,
each possibly absent (`jwt_decoded['iat']` and `jwt_decoded['exp']` raise
`KeyError` when absent, `jwt_decoded.get('email', None)` never does).
Numeric claims are modelled as integers. -/
structure JwtClaims where
  iat : Option Int
  exp : Option Int
  email : Option String
deriving DecidableEq

/-- The three `jose` exception classes caught by `process_response`. -/
inductive JwtException
  | expiredSignatureError
  | jwtClaimsError
  | jwtError
deriving DecidableEq

/-- The reply of the refresh provider as `process_response` reads it:
`resp.status_code` and `resp.data.get('jwt', None)`. -/
structure ProviderReply where
  status_code : Int
  jwt : Option String
deriving DecidableEq

/-- The one HTTP request `process_response` can issue:
`requests.post(settings.REMOTE_JWT_REFRESH_PROVIDER,
headers={'Authorization': 'Bearer ' + jwttoken}, data={'email': email})`. -/
structure HttpRequest where
  url : String
  authorization : String
  email : Option String
deriving DecidableEq

/-- A cookie set on the response via `response.set_cookie`. -/
structure Cookie where
  name : String
  value : String
  secure : Bool
  httponly : Bool
deriving DecidableEq

/-- The Flask response object, recording the cookies set on it. -/
structure Response where
  cookies : List Cookie
deriving DecidableEq

/-- `response.set_cookie(name, value, secure=..., httponly=...)`. -/
def Response.set_cookie (r : Response) (n v : String) (sec hto : Bool) : Response :=
  { cookies := r.cookies ++ [{ name := n, value := v, secure := sec, httponly := hto }] }

/-- What `JwtFlask.process_response` can produce: the redirect to the
login endpoint, the superclass result on a (possibly cookie-updated)
response, or an uncaught `KeyError` escaping the hook. -/
inductive HookOutcome
  | redirect (url : String)
  | normal (resp : Response)
  | keyError (key : String)
deriving DecidableEq

/-- The settings `process_response` reads. -/
structure JwtSettings where
  REMOTE_JWT_REFRESH_PROVIDER : String
  REMOTE_JWT_EXPIRED_ENDPOINT : String

/-- The external world of one `process_response` invocation: settings,
the public key from `get_jwt_public_key()`, the two `jose` decoding
functions, the clock `time.time()`, and the `requests.post` oracle. -/
structure HookEnv where
  settings : JwtSettings
  public_key : String
  get_unverified_claims : String → Except JwtException JwtClaims
  decode : String → String → Except JwtException JwtClaims
  now : Int
  post : HttpRequest → ProviderReply

/-- The decoding step of `process_response`:
`jwt.get_unverified_claims(jwttoken) if public_key is '' else
jwt.decode(jwttoken, public_key)`. -/
def decodeOf (env : HookEnv) (jwttoken : String) : Except JwtException JwtClaims :=
  if env.public_key == "" then env.get_unverified_claims jwttoken
  else env.decode jwttoken env.public_key

/-- The request `requests.post` is called with in the refresh branch. -/
def refreshRequest (env : HookEnv) (jwttoken : String) (jwt_decoded : JwtClaims) : HttpRequest :=
  { url := env.settings.REMOTE_JWT_REFRESH_PROVIDER
    authorization := "Bearer " ++ jwttoken
    email := jwt_decoded.email }

/-- The URL of the login redirect:
`settings.REMOTE_JWT_EXPIRED_ENDPOINT + urllib.quote_plus(request.referrer)`. -/
def expiredRedirect (env : HookEnv) (referrer : String) : String :=
  env.settings.REMOTE_JWT_EXPIRED_ENDPOINT ++ quote_plus referrer

/-- `JwtFlask.process_response` from `create_app` in `redash/__init__.py`.
Besides the outcome it returns the list of HTTP requests issued to the
refresh provider during the invocation.  `superProcess` is the inherited
`Flask.process_response`, `cookies` the request cookie dictionary and
`referrer` the request referrer. -/
def process_response (env : HookEnv) (superProcess : Response → Response)
    (cookies : String → Option String) (referrer : String)
    (response : Response) : HookOutcome × List HttpRequest :=
  match cookies "jwt" with
  | none => (HookOutcome.normal (superProcess response), [])
  | some jwttoken =>
    match decodeOf env jwttoken with
    | Except.error _ => (HookOutcome.redirect (expiredRedirect env referrer), [])
    | Except.ok jwt_decoded =>
      match jwt_decoded.iat with
      | none => (HookOutcome.keyError "iat", [])
      | some iat =>
        match jwt_decoded.exp with
        | none => (HookOutcome.keyError "exp", [])
        | some exp =>
          let now := env.now
          if iat + 1200 < now ∧ now ≤ exp then
            let req := refreshRequest env jwttoken jwt_decoded
            let resp := env.post req
            match resp.jwt with
            | some v =>
              if resp.status_code < 300 then
                (HookOutcome.normal (superProcess (response.set_cookie "jwt" v true true)), [req])
              else if resp.status_code == 401 then
                (HookOutcome.redirect (expiredRedirect env referrer), [req])
              else
                (HookOutcome.normal (superProcess response), [req])
            | none =>
              if resp.status_code == 401 then
                (HookOutcome.redirect (expiredRedirect env referrer), [req])
              else
                (HookOutcome.normal (superProcess response), [req])
          else if now > exp then
            (HookOutcome.redirect (expiredRedirect env referrer), [])
          else
            (HookOutcome.normal (superProcess response), [])

/-- The settings `create_app` reads when constructing the app object. -/
structure AppSettings where
  REMOTE_JWT_LOGIN_ENABLED : Bool
  STATIC_ASSETS_PATH : String
  ROOT_UI_URL : String

/-- Which class `create_app` instantiates. -/
inductive AppClass
  | jwtFlask
  | flask
deriving DecidableEq

/-- The constructed application object: its class (the `JwtFlask`
subclass, whose `process_response` is modelled above, or plain `Flask`)
and the constructor arguments. -/
structure FlaskApp where
  cls : AppClass
  template_folder : String
  static_folder : String
  static_url_path : String
deriving DecidableEq

/-- The app-construction step of `create_app` in `redash/__init__.py`:
`JwtFlask` when `settings.REMOTE_JWT_LOGIN_ENABLED`, plain `Flask`
otherwise, in both cases with template folder and static folder
`settings.STATIC_ASSETS_PATH` and static URL path
`settings.ROOT_UI_URL + '/static'`. -/
def create_app (s : AppSettings) : FlaskApp :=
  if s.REMOTE_JWT_LOGIN_ENABLED then
    { cls := AppClass.jwtFlask
      template_folder := s.STATIC_ASSETS_PATH
      static_folder := s.STATIC_ASSETS_PATH
      static_url_path := s.ROOT_UI_URL ++ "/static" }
  else
    { cls := AppClass.flask
      template_folder := s.STATIC_ASSETS_PATH
      static_folder := s.STATIC_ASSETS_PATH
      static_url_path := s.ROOT_UI_URL ++ "/static" }

/-- C1: if handling the `jwt` cookie raises a JWT validation exception
(`ExpiredSignatureError`, `JWTClaimsError` or `JWTError`) at the decoding
step, `process_response` returns a redirect to
`settings.REMOTE_JWT_EXPIRED_ENDPOINT` concatenated with the URL-quoted
request referrer, instead of the normal response. -/
theorem C1_jwt_exception_redirects (env : HookEnv) (superProcess : Response → Response)
    (cookies : String → Option String) (referrer : String) (response : Response)
    (jwttoken : String) (e : JwtException)
    (htok : cookies "jwt" = some jwttoken)
    (hdec : decodeOf env jwttoken = Except.error e) :
    (process_response env superProcess cookies referrer response).fst
      = HookOutcome.redirect
          (env.settings.REMOTE_JWT_EXPIRED_ENDPOINT ++ quote_plus referrer) := by
  simp only [process_response, htok, hdec]
  rfl

/-- Concrete environment used by the witnesses: a valid token inside the
refresh window, a provider replying `200` with a fresh token. -/
def okClaims : JwtClaims :=
  { iat := some 0, exp := some 10000, email := some "user@example.com" }

def sampleSettings : JwtSettings :=
  { REMOTE_JWT_REFRESH_PROVIDER := "https://auth.example.com/refresh"
    REMOTE_JWT_EXPIRED_ENDPOINT := "https://auth.example.com/login?next=" }

def sampleEnv : HookEnv :=
  { settings := sampleSettings
    public_key := "pk"
    get_unverified_claims := fun _ => Except.ok okClaims
    decode := fun _ _ => Except.ok okClaims
    now := 5000
    post := fun _ => { status_code := 200, jwt := some "newtoken" } }

/-- Variant of `sampleEnv` whose decoder raises `JWTError`. -/
def errEnv : HookEnv :=
  { sampleEnv with decode := fun _ _ => Except.error JwtException.jwtError }

/-- Witness for C1 at a concrete input. -/
theorem C1_witness :
    (process_response errEnv id (fun _ => some "tok") "https://app/x y" ⟨[]⟩).fst
      = HookOutcome.redirect "https://auth.example.com/login?next=https%3A%2F%2Fapp%2Fx+y" := by
  rw [C1_jwt_exception_redirects errEnv id (fun _ => some "tok") "https://app/x y" ⟨[]⟩
    "tok" JwtException.jwtError rfl rfl]
  rfl

/-- C3: `create_app` instantiates the `JwtFlask` subclass exactly when
`settings.REMOTE_JWT_LOGIN_ENABLED` holds and plain `Flask` otherwise,
in both cases with the same template folder, static folder and static URL
path derived from the settings. -/
theorem C3_create_app_class (s : AppSettings) :
    ((create_app s).cls = AppClass.jwtFlask ↔ s.REMOTE_JWT_LOGIN_ENABLED = true)
    ∧ ((create_app s).cls = AppClass.flask ↔ s.REMOTE_JWT_LOGIN_ENABLED = false)
    ∧ (create_app s).template_folder = s.STATIC_ASSETS_PATH
    ∧ (create_app s).static_folder = s.STATIC_ASSETS_PATH
    ∧ (create_app s).static_url_path = s.ROOT_UI_URL ++ "/static" := by
  cases h : s.REMOTE_JWT_LOGIN_ENABLED <;> simp [create_app, h]

/-- C4: a present `jwt` cookie whose decoded claims have `now > exp`
makes the hook raise `JWTClaimsError` internally, hence return the login
redirect rather than the normal response. -/
theorem C4_expired_claims_redirect (env : HookEnv) (superProcess : Response → Response)
    (cookies : String → Option String) (referrer : String) (response : Response)
    (jwttoken : String) (cl : JwtClaims) (iat exp : Int)
    (htok : cookies "jwt" = some jwttoken)
    (hdec : decodeOf env jwttoken = Except.ok cl)
    (hiat : cl.iat = some iat) (hexp : cl.exp = some exp)
    (hnow : env.now > exp) :
    (process_response env superProcess cookies referrer response).fst
      = HookOutcome.redirect
          (env.settings.REMOTE_JWT_EXPIRED_ENDPOINT ++ quote_plus referrer) := by
  have hnotfresh : ¬(iat + 1200 < env.now ∧ env.now ≤ exp) := by omega
  simp only [process_response, htok, hdec, hiat, hexp]
  rw [if_neg hnotfresh, if_pos hnow]
  rfl

/-- Variant of `sampleEnv` whose clock is past the expiration claim. -/
def lateEnv : HookEnv := { sampleEnv with now := 20000 }

/-- Witness for C4 at a concrete input. -/
theorem C4_witness :
    (process_response lateEnv id (fun _ => some "tok") "ref" ⟨[]⟩).fst
      = HookOutcome.redirect "https://auth.example.com/login?next=ref" := by
  rw [C4_expired_claims_redirect lateEnv id (fun _ => some "tok") "ref" ⟨[]⟩
    "tok" okClaims 0 10000 rfl rfl rfl rfl (by decide)]
  rfl

/-- C6: the hook is stateless and deterministic over its modelled external
inputs: two invocations with the same environment (settings, public key,
decoders, clock, provider), the same `jwt` request cookie, the same
referrer and the same response produce the same result, even if the two
cookie dictionaries differ elsewhere. -/
theorem C6_hook_deterministic (env : HookEnv) (superProcess : Response → Response)
    (cookies1 cookies2 : String → Option String) (referrer : String) (response : Response)
    (h : cookies1 "jwt" = cookies2 "jwt") :
    process_response env superProcess cookies1 referrer response
      = process_response env superProcess cookies2 referrer response := by
  unfold process_response
  rw [h]

/-- Witness for C6 at a concrete input: two cookie dictionaries agreeing
on the `jwt` entry. -/
theorem C6_witness :
    process_response sampleEnv id
        (fun k => if k == "session" then some "s1" else some "tok") "ref" ⟨[]⟩
      = process_response sampleEnv id (fun _ => some "tok") "ref" ⟨[]⟩ :=
  C6_hook_deterministic sampleEnv id
    (fun k => if k == "session" then some "s1" else some "tok")
    (fun _ => some "tok") "ref" ⟨[]⟩ rfl

/-- C10: with no `jwt` entry among the request cookies the hook does
nothing: no cookie set, no HTTP request issued, no redirect, and the
result is exactly the superclass `process_response` on the unmodified
response. -/
theorem C10_no_cookie_frame (env : HookEnv) (superProcess : Response → Response)
    (cookies : String → Option String) (referrer : String) (response : Response)
    (h : cookies "jwt" = none) :
    process_response env superProcess cookies referrer response
      = (HookOutcome.normal (superProcess response), []) := by
  unfold process_response
  rw [h]

/-- Witness for C10 at a concrete input. -/
theorem C10_witness :
    process_response sampleEnv id (fun _ => none) "ref" ⟨[]⟩
      = (HookOutcome.normal ⟨[]⟩, []) :=
  C10_no_cookie_frame sampleEnv id (fun _ => none) "ref" ⟨[]⟩ rfl

/-- C2: a present `jwt` cookie whose decoded claims satisfy
`iat + 1200 < now <= exp` triggers the refresh: exactly one POST of the
token as a Bearer Authorization header to
`settings.REMOTE_JWT_REFRESH_PROVIDER`, and when the provider's status
code is below 300 and its reply carries a `jwt` value, that value is set
as the `jwt` cookie on the response with the secure and httponly flags. -/
theorem C2_refresh_sets_cookie (env : HookEnv) (superProcess : Response → Response)
    (cookies : String → Option String) (referrer : String) (response : Response)
    (jwttoken : String) (cl : JwtClaims) (iat exp : Int) (v : String)
    (htok : cookies "jwt" = some jwttoken)
    (hdec : decodeOf env jwttoken = Except.ok cl)
    (hiat : cl.iat = some iat) (hexp : cl.exp = some exp)
    (hfresh : iat + 1200 < env.now) (hvalid : env.now ≤ exp)
    (hstatus : (env.post (refreshRequest env jwttoken cl)).status_code < 300)
    (hjwt : (env.post (refreshRequest env jwttoken cl)).jwt = some v) :
    process_response env superProcess cookies referrer response
      = (HookOutcome.normal (superProcess (response.set_cookie "jwt" v true true)),
         [{ url := env.settings.REMOTE_JWT_REFRESH_PROVIDER
            authorization := "Bearer " ++ jwttoken
            email := cl.email }]) := by
  simp only [process_response, htok, hdec, hiat, hexp]
  rw [if_pos ⟨hfresh, hvalid⟩]
  simp only [hjwt]
  rw [if_pos hstatus]
  rfl

/-- Witness for C2 at a concrete input: `sampleEnv` has `iat = 0`,
`exp = 10000`, `now = 5000`, and a provider replying `200` with a fresh
token. -/
theorem C2_witness :
    process_response sampleEnv id (fun _ => some "tok") "ref" ⟨[]⟩
      = (HookOutcome.normal
           ⟨[{ name := "jwt", value := "newtoken", secure := true, httponly := true }]⟩,
         [{ url := "https://auth.example.com/refresh"
            authorization := "Bearer tok"
            email := some "user@example.com" }]) := by
  rw [C2_refresh_sets_cookie sampleEnv id (fun _ => some "tok") "ref" ⟨[]⟩
    "tok" okClaims 0 10000 "newtoken" rfl rfl rfl rfl (by decide) (by decide) (by decide) rfl]
  rfl

/-- C8: decoded claims lacking the `iat` or the `exp` key make the lookup
raise `KeyError`, which is not among the caught JWT exception types: the
hook neither redirects to the login endpoint nor returns normally, the
error escapes uncaught. -/
theorem C8_missing_key_escapes (env : HookEnv) (superProcess : Response → Response)
    (cookies : String → Option String) (referrer : String) (response : Response)
    (jwttoken : String) (cl : JwtClaims)
    (htok : cookies "jwt" = some jwttoken)
    (hdec : decodeOf env jwttoken = Except.ok cl)
    (hmiss : cl.iat = none ∨ cl.exp = none) :
    (∃ k, (process_response env superProcess cookies referrer response).fst
       = HookOutcome.keyError k)
    ∧ (∀ u, (process_response env superProcess cookies referrer response).fst
       ≠ HookOutcome.redirect u)
    ∧ (∀ r, (process_response env superProcess cookies referrer response).fst
       ≠ HookOutcome.normal r) := by
  have hk : ∃ k, (process_response env superProcess cookies referrer response).fst
      = HookOutcome.keyError k := by
    cases hiat : cl.iat with
    | none =>
      exact ⟨"iat", by simp only [process_response, htok, hdec, hiat]⟩
    | some iat =>
      rcases hmiss with h | h
      · rw [hiat] at h
        exact absurd h (by simp)
      · exact ⟨"exp", by simp only [process_response, htok, hdec, hiat, h]⟩
  obtain ⟨k, hk2⟩ := hk
  refine ⟨⟨k, hk2⟩, fun u hu => ?_, fun r hr => ?_⟩
  · rw [hk2] at hu
    exact HookOutcome.noConfusion hu
  · rw [hk2] at hr
    exact HookOutcome.noConfusion hr

/-- Variant of `sampleEnv` whose decoder returns claims without an `iat`
key. -/
def noIatEnv : HookEnv :=
  { sampleEnv with
    decode := fun _ _ => Except.ok { iat := none, exp := some 10000, email := none } }

/-- Witness for C8 at a concrete input. -/
theorem C8_witness :
    (∃ k, (process_response noIatEnv id (fun _ => some "tok") "ref" ⟨[]⟩).fst
       = HookOutcome.keyError k)
    ∧ (∀ u, (process_response noIatEnv id (fun _ => some "tok") "ref" ⟨[]⟩).fst
       ≠ HookOutcome.redirect u)
    ∧ (∀ r, (process_response noIatEnv id (fun _ => some "tok") "ref" ⟨[]⟩).fst
       ≠ HookOutcome.normal r) :=
  C8_missing_key_escapes noIatEnv id (fun _ => some "tok") "ref" ⟨[]⟩
    "tok" { iat := none, exp := some 10000, email := none } rfl rfl (Or.inl rfl)

/-- C5: `create_redis_connection` over the parsed `REDIS_URL`: scheme
`redis+socket` connects over the unix socket at the URL's path with db the
first `virtual_host` query-string value when present and `0` otherwise;
any other scheme connects to the URL's hostname and port, with db taken
from the URL path (`0` when the path is empty) and the password
URL-unquoted when present. -/
theorem C5_redis_url_parsing (u : ParsedUrl)
    (parse_qs : String → List (String × List String)) :
    (u.scheme = "redis+socket" →
      (∀ v vs, lookupQs (parse_qs u.query) "virtual_host" = some (v :: vs) →
        create_redis_connection u parse_qs
          = Except.ok (RedisConn.socket u.path (DbVal.ofString v)))
      ∧ (lookupQs (parse_qs u.query) "virtual_host" = none →
        create_redis_connection u parse_qs
          = Except.ok (RedisConn.socket u.path (DbVal.ofInt 0))))
    ∧ (u.scheme ≠ "redis+socket" →
      (u.path = "" →
        create_redis_connection u parse_qs
          = Except.ok (RedisConn.tcp u.hostname u.port (DbVal.ofInt 0)
              (u.password.map (fun p => if p == "" then p else unquote p))))
      ∧ (∀ c, u.path.data.get? 1 = some c →
        create_redis_connection u parse_qs
          = Except.ok (RedisConn.tcp u.hostname u.port (DbVal.ofString (String.mk [c]))
              (u.password.map (fun p => if p == "" then p else unquote p))))) := by
  constructor
  · intro hs
    constructor
    · intro v vs hq
      simp only [create_redis_connection, hs, hq]
      rfl
    · intro hq
      simp only [create_redis_connection, hs, hq]
      rfl
  · intro hs
    have hs2 : (u.scheme == "redis+socket") = false := by
      simpa using hs
    constructor
    · intro hp
      simp only [create_redis_connection, hs2, hp]
      rfl
    · intro c hc
      have hp : (u.path == "") = false := by
        simp only [beq_eq_false_iff_ne, ne_eq]
        intro h
        rw [h] at hc
        simp at hc
      simp only [create_redis_connection, hs2, hp, hc]
      rfl

/-- Witness for C5 at concrete inputs: a socket URL with a
`virtual_host` query value, and a TCP URL with database path `/3` and a
percent-quoted password. -/
theorem C5_witness :
    create_redis_connection
        ⟨"redis+socket", none, none, none, "/var/run/redis.sock", "virtual_host=5"⟩
        (fun _ => [("virtual_host", ["5"])])
      = Except.ok (RedisConn.socket "/var/run/redis.sock" (DbVal.ofString "5"))
    ∧ create_redis_connection
        ⟨"redis", some "localhost", some 6379, some "p%40w", "/3", ""⟩
        (fun _ => [])
      = Except.ok (RedisConn.tcp (some "localhost") (some 6379)
          (DbVal.ofString "3") (some "p@w")) := by
  constructor
  · rw [(C5_redis_url_parsing
      ⟨"redis+socket", none, none, none, "/var/run/redis.sock", "virtual_host=5"⟩
      (fun _ => [("virtual_host", ["5"])])).1 rfl |>.1 "5" [] rfl]
  · rw [(C5_redis_url_parsing
      ⟨"redis", some "localhost", some 6379, some "p%40w", "/3", ""⟩
      (fun _ => [])).2 (by decide) |>.2 '3' rfl]
    rfl

/-- C9: for a non-socket URL with a non-empty path, the database is
exactly the single character at index 1 of the path, so a multi-digit
database path such as `/12` is truncated to `1`, and a path consisting
only of `/` raises `IndexError`. -/
theorem C9_db_truncation (u : ParsedUrl)
    (parse_qs : String → List (String × List String))
    (hs : u.scheme ≠ "redis+socket") :
    (∀ c, u.path.data.get? 1 = some c →
      create_redis_connection u parse_qs
        = Except.ok (RedisConn.tcp u.hostname u.port (DbVal.ofString (String.mk [c]))
            (u.password.map (fun p => if p == "" then p else unquote p))))
    ∧ (u.path ≠ "" → u.path.data.get? 1 = none →
      create_redis_connection u parse_qs = Except.error RedisErr.indexError) := by
  have hs2 : (u.scheme == "redis+socket") = false := by
    simpa using hs
  constructor
  · intro c hc
    have hp : (u.path == "") = false := by
      simp only [beq_eq_false_iff_ne, ne_eq]
      intro h
      rw [h] at hc
      simp at hc
    simp only [create_redis_connection, hs2, hp, hc]
    rfl
  · intro hp hc
    have hp2 : (u.path == "") = false := by
      simpa using hp
    simp only [create_redis_connection, hs2, hp2, hc]
    rfl

/-- Witness for C9 at concrete inputs: path `/12` yields database string
`1`; path `/` raises `IndexError`. -/
theorem C9_witness :
    create_redis_connection ⟨"redis", some "h", some 6379, none, "/12", ""⟩ (fun _ => [])
      = Except.ok (RedisConn.tcp (some "h") (some 6379) (DbVal.ofString "1") none)
    ∧ create_redis_connection ⟨"redis", some "h", some 6379, none, "/", ""⟩ (fun _ => [])
      = Except.error RedisErr.indexError := by
  constructor
  · rw [(C9_db_truncation ⟨"redis", some "h", some 6379, none, "/12", ""⟩ (fun _ => [])
      (by decide)).1 '1' rfl]
    rfl
  · exact (C9_db_truncation ⟨"redis", some "h", some 6379, none, "/", ""⟩ (fun _ => [])
      (by decide)).2 (by decide) rfl

/-- Closed form of the request trace of one `process_response`
invocation: the single refresh request exactly when the cookie is
present, the claims decode with `iat` and `exp` keys, and the refresh
window holds; the empty trace otherwise. -/
theorem process_response_trace (env : HookEnv) (superProcess : Response → Response)
    (cookies : String → Option String) (referrer : String) (response : Response) :
    (process_response env superProcess cookies referrer response).snd =
      match cookies "jwt" with
      | none => []
      | some jwttoken =>
        match decodeOf env jwttoken with
        | Except.error _ => []
        | Except.ok cl =>
          match cl.iat, cl.exp with
          | some iat, some exp =>
            if iat + 1200 < env.now ∧ env.now ≤ exp then [refreshRequest env jwttoken cl]
            else []
          | some _, none => []
          | none, _ => [] := by
  cases hc : cookies "jwt" with
  | none => simp only [process_response, hc]
  | some jwttoken =>
    cases hd : decodeOf env jwttoken with
    | error e => simp only [process_response, hc, hd]
    | ok cl =>
      cases hiat : cl.iat with
      | none => simp only [process_response, hc, hd, hiat]
      | some iat =>
        cases hexp : cl.exp with
        | none => simp only [process_response, hc, hd, hiat, hexp]
        | some exp =>
          simp only [process_response, hc, hd, hiat, hexp]
          by_cases hcond : iat + 1200 < env.now ∧ env.now ≤ exp
          · rw [if_pos hcond, if_pos hcond]
            cases hj : (env.post (refreshRequest env jwttoken cl)).jwt with
            | some v =>
              simp only [hj]
              split
              · rfl
              · split <;> rfl
            | none =>
              simp only [hj]
              split <;> rfl
          · rw [if_neg hcond, if_neg hcond]
            split <;> rfl

/-- C7: the hook performs no retries: at most one HTTP request per
invocation, and exactly one precisely when the cookie is present, the
claims decode with `iat` and `exp` keys, and the refresh window
`iat + 1200 < now <= exp` holds — regardless of the provider's reply. -/
theorem C7_at_most_one_request (env : HookEnv) (superProcess : Response → Response)
    (cookies : String → Option String) (referrer : String) (response : Response) :
    (process_response env superProcess cookies referrer response).snd.length ≤ 1
    ∧ ((process_response env superProcess cookies referrer response).snd.length = 1 ↔
        ∃ jwttoken cl iat exp, cookies "jwt" = some jwttoken
          ∧ decodeOf env jwttoken = Except.ok cl
          ∧ cl.iat = some iat ∧ cl.exp = some exp
          ∧ iat + 1200 < env.now ∧ env.now ≤ exp) := by
  rw [process_response_trace]
  cases hc : cookies "jwt" with
  | none => exact ⟨by simp, by simp⟩
  | some jwttoken =>
    cases hd : decodeOf env jwttoken with
    | error e => exact ⟨by simp [hd], by simp [hd]⟩
    | ok cl =>
      cases hiat : cl.iat with
      | none => exact ⟨by simp [hd, hiat], by simp [hd, hiat]⟩
      | some iat =>
        cases hexp : cl.exp with
        | none => exact ⟨by simp [hd, hiat, hexp], by simp [hd, hiat, hexp]⟩
        | some exp =>
          simp only [hd, hiat, hexp]
          by_cases hcond : iat + 1200 < env.now ∧ env.now ≤ exp
          · rw [if_pos hcond]
            exact ⟨by simp, by simp [hd, hiat, hexp, hcond.1, hcond.2]⟩
          · rw [if_neg hcond]
            refine ⟨by simp, ?_⟩
            constructor
            · intro h1
              simp at h1
            · intro h
              obtain ⟨tok, cl2, iat2, exp2, htok, hdec2, hiat2, hexp2, h1, h2⟩ := h
              obtain rfl : jwttoken = tok := Option.some.inj htok
              rw [hd] at hdec2
              obtain rfl : cl = cl2 := Except.ok.inj hdec2
              rw [hiat] at hiat2
              rw [hexp] at hexp2
              obtain rfl : iat = iat2 := Option.some.inj hiat2
              obtain rfl : exp = exp2 := Option.some.inj hexp2
              exact absurd ⟨h1, h2⟩ hcond
